import Mathlib

/-!
# Verification of the hedge-trading-bot execution core

Shallow embedding of the core components of the repository
(RiskManager, OrderExecutor, HedgeEngine, PositionManager,
SignalEngine, AutomationEngine) together with proofs of the
spec claims about them.

Numbers are modelled as rationals (`ℚ`): the source performs plain
JavaScript arithmetic on `number`s and every claim under scrutiny is
about exact arithmetic relationships, not floating-point rounding.
Fallible code (`throw`) is modelled with `Except`/result records,
external collaborators (the database client, the market-data feed,
the execution venue) as explicit oracle parameters.  Several source
functions reference identifiers that are bound nowhere in the tree
(`uuidv4` in signalEngine.ts; `OPEN`, `CLOSED`, `PositionType` in
positionManager.ts): evaluating such an identifier throws a
`ReferenceError` at the call site, and the embedding models those
statements as the errors they raise, not as the statements' apparent
intent.
-/

namespace HedgeBot

/-- Side of one leg of a hedge position (`"long" | "short"` in the source). -/
inductive Side where
  | long
  | short
deriving DecidableEq, Repr

/-! ## RiskManager (src/core/riskManager.ts)

Stateless validators.  `checkSufficientBalance` returns
`{valid, reason?}`; the two failure branches of the source carry two
distinct message templates ("Insufficient balance. ..." vs
"Insufficient balance for trade + fees. ..."), which we model as an
enumerated reason kind. -/

/-- The two distinct failure-reason templates of `checkSufficientBalance`. -/
inductive BalanceReason where
  /-- "Insufficient balance. Required: _, Available: _" -/
  | insufficientBalance
  /-- "Insufficient balance for trade + fees. Required: _, Available: _" -/
  | insufficientForFees
deriving DecidableEq, Repr

/-- Result shape `{ valid: boolean; reason?: string }` of the balance check. -/
structure BalanceCheckResult where
  valid : Bool
  reason : Option BalanceReason
deriving DecidableEq, Repr

/-- `RiskManager.checkSufficientBalance(requiredAmount, availableBalance)`:
first rejects when `availableBalance < requiredAmount`, then rejects when
`availableBalance < requiredAmount * 1.01` (1% fee buffer), else valid. -/
def checkSufficientBalance (requiredAmount availableBalance : ℚ) : BalanceCheckResult :=
  if availableBalance < requiredAmount then
    ⟨false, some .insufficientBalance⟩
  -- `bufferAmount = requiredAmount * 1.01`: a small buffer for fees (1%)
  else if availableBalance < requiredAmount * (101 / 100) then
    ⟨false, some .insufficientForFees⟩
  else
    ⟨true, none⟩

/-- `RiskManager.shouldTriggerStopLossWithDefault(currentPrice, entryPrice,
side, customStopLossPercent?)`.  The source computes
`stopLossPercent = customStopLossPercent || 0.1`, so an absent *or zero*
(falsy) custom percent is replaced by the 0.1 default; then for `long` it
fires iff `priceDiff < 0 && |priceDiff/entryPrice| >= stopLossPercent`,
and for `short` iff `priceDiff > 0 && |priceDiff/entryPrice| >= stopLossPercent`. -/
def shouldTriggerStopLossWithDefault (currentPrice entryPrice : ℚ) (side : Side)
    (customStopLossPercent : Option ℚ) : Bool :=
  let stopLossPercent : ℚ :=
    match customStopLossPercent with
    | none => 1 / 10
    | some p => if p = 0 then 1 / 10 else p   -- JS `p || 0.1`: 0 is falsy
  let priceDiff := currentPrice - entryPrice
  let percentChange := |priceDiff / entryPrice|
  match side with
  | .long => decide (priceDiff < 0) && decide (percentChange ≥ stopLossPercent)
  | .short => decide (priceDiff > 0) && decide (percentChange ≥ stopLossPercent)

end HedgeBot

namespace HedgeBot

/-! ## OrderExecutor (OrderExecutor.executeOrder / executeHedgeOrders) and
the error taxonomy (utils/errors.ts)

Each execution attempt (validate → create record → dispatch → confirm)
either succeeds with a transaction signature or throws an error; we model
the venue/database/network behaviour of attempt number `n` with an oracle
`ℕ → AttemptOutcome`.  The retry loop `while (retryAttempt <= MAX_RETRIES)`
with `MAX_RETRIES = 4` is embedded with an explicit iteration-count fuel of
`MAX_RETRIES + 1 = 5`, the number of times the loop body can run.
`attemptsMade` and `sleeps` record the execution trace (loop iterations
performed and arguments of the `this.sleep` calls, in ms). -/

/-- The error taxonomy of utils/errors.ts, restricted to the classes
`isRetryableError` discriminates on.  `rateLimitError` carries its
`retryAfter` value (seconds). -/
inductive TradeError where
  | networkError
  | rateLimitError (retryAfter : ℕ)
  | transactionTimeoutError
  | transactionConfirmationError
  | slippageError
  | insufficientFundsError
  | validationError
  | otherError
deriving DecidableEq, Repr

/-- `isRetryableError(error)`: true exactly for `NetworkError`,
`RateLimitError` and `TransactionTimeoutError`. -/
def isRetryableError : TradeError → Bool
  | .networkError => true
  | .rateLimitError _ => true
  | .transactionTimeoutError => true
  | _ => false

/-- `getRetryDelay(attemptNumber)`: `delays[min(attemptNumber, 3)]` over
`delays = [2000, 4000, 8000, 16000]`. -/
def getRetryDelay (attemptNumber : ℕ) : ℕ :=
  [2000, 4000, 8000, 16000].getD (min attemptNumber 3) 0

/-- Outcome of one attempt of the executeOrder loop body: either the
dispatched order succeeds (with a signature) or some step throws. -/
inductive AttemptOutcome where
  | success (signature : String)
  | failure (e : TradeError)
deriving DecidableEq, Repr

/-- The `ExecutionResult` record of OrderExecutor, together with the
execution trace of the retry loop (`attemptsMade`, `sleeps`). -/
structure ExecutionResult where
  success : Bool
  signature : Option String
  error : Option TradeError
  retryAttempts : ℕ
  /-- trace: how many times the loop body ran (order-execution attempts) -/
  attemptsMade : ℕ
  /-- trace: the `this.sleep` delays performed, in ms, in order -/
  sleeps : List ℕ
deriving DecidableEq, Repr

/-- The delay slept after a retryable failure in attempt `n`: the
venue-specified `retryAfter * 1000` for a rate-limit error with positive
`retryAfter`, else the exponential backoff `getRetryDelay(n)`. -/
def retrySleep (e : TradeError) (n : ℕ) : ℕ :=
  match e with
  | .rateLimitError retryAfter => if retryAfter > 0 then retryAfter * 1000 else getRetryDelay n
  | _ => getRetryDelay n

/-- One unrolling of `while (retryAttempt <= MAX_RETRIES)`: `fuel` counts
the remaining loop iterations (initially `MAX_RETRIES + 1 = 5`, so the
guard `retryAttempt ≤ 4` and `fuel > 0` coincide); on a retryable failure
the loop sleeps and retries, on a non-retryable failure it returns
immediately, and when the loop exits the result is
`{success: false, retryAttempts: MAX_RETRIES}`. -/
def executeOrderGo (oracle : ℕ → AttemptOutcome) :
    ℕ → ℕ → Option TradeError → List ℕ → ExecutionResult
  | 0, retryAttempt, lastError, sleeps =>
      -- All retries exhausted
      { success := false, signature := none, error := lastError
        retryAttempts := 4, attemptsMade := retryAttempt, sleeps := sleeps }
  | fuel + 1, retryAttempt, _lastError, sleeps =>
      match oracle retryAttempt with
      | .success sig =>
          { success := true, signature := some sig, error := none
            retryAttempts := retryAttempt, attemptsMade := retryAttempt + 1, sleeps := sleeps }
      | .failure e =>
          if isRetryableError e then
            executeOrderGo oracle fuel (retryAttempt + 1) (some e)
              (sleeps ++ [retrySleep e retryAttempt])
          else
            -- Not retryable, return failure immediately
            { success := false, signature := none, error := some e
              retryAttempts := retryAttempt, attemptsMade := retryAttempt + 1, sleeps := sleeps }

/-- `OrderExecutor.executeOrder(order)` with the venue behaviour given by
`oracle`: the retry loop starting at `retryAttempt = 0`. -/
def executeOrder (oracle : ℕ → AttemptOutcome) : ExecutionResult :=
  executeOrderGo oracle 5 0 none []

/-- The `AtomicExecutionError` payload (utils/errors.ts): lists of
successful and failed leg identifiers plus a reason. -/
structure AtomicError where
  message : String
  successfulOrders : List String
  failedOrders : List String
deriving DecidableEq, Repr

/-- The `HedgeExecutionResult` record of `executeHedgeOrders` (the
`totalFees` field is not modelled: no claim concerns fees). -/
structure HedgeExecutionResult where
  success : Bool
  longOrderSuccess : Bool
  shortOrderSuccess : Bool
  error : Option AtomicError
deriving DecidableEq, Repr

/-- `OrderExecutor.executeHedgeOrders(longOrder, shortOrder)`, with the two
legs' venue behaviour given by `longOracle` and `shortOracle`.  The long
leg is executed first; the short leg is executed only if the long leg
succeeded.  The returned `Bool` records whether `executeOrder` was invoked
for the short leg.  Fees are omitted from the per-leg results (the claims
do not mention them); `totalFees` is `0` on the failure paths as in the
source's catch block. -/
def executeHedgeOrders (longOracle shortOracle : ℕ → AttemptOutcome) :
    HedgeExecutionResult × Bool :=
  let longResult := executeOrder longOracle
  if longResult.success = false then
    -- throw AtomicExecutionError("Long order failed", [], ["long"], ...)
    -- caught: longOrder.success = (successfulOrders.length > 0) = false
    (⟨false, false, false,
      some ⟨"Long order failed", [], ["long"]⟩⟩, false)
  else
    -- successfulOrders.push(longResult.signature!)
    let successfulOrders := [longResult.signature.getD "undefined"]
    let shortResult := executeOrder shortOracle
    if shortResult.success = false then
      -- throw AtomicExecutionError("Short order failed after long order
      -- succeeded", [longSig], ["short"], ...); caught:
      -- longOrder.success = (successfulOrders.length > 0) = true
      (⟨false, true, false,
        some ⟨"Short order failed after long order succeeded",
              successfulOrders, ["short"]⟩⟩, true)
    else
      (⟨true, true, true, none⟩, true)

/-! ## AutomationEngine (src/core/automationEngine.ts) — state machine

The state relevant to the kill-switch/start claims: the `running` flag,
the `safetyConfig.killSwitch` flag and the number of registered
strategies (`strategies.size`; `registerStrategy` of a fresh strategy id
grows the map by one, `unregisterStrategy` of a present id shrinks it by
one). -/

/-- AutomationEngine state: `running`, `safetyConfig.killSwitch`,
`strategies.size`. -/
structure EngineState where
  running : Bool
  killSwitch : Bool
  strategies : ℕ
deriving DecidableEq, Repr

/-- Outcome of a call to `AutomationEngine.start()`: the early return when
already running, the two `throw new Error(...)` paths, or a successful
start. -/
inductive StartOutcome where
  /-- early return: "AutomationEngine: Already running" -/
  | alreadyRunning
  /-- throw: "No strategies registered. Register at least one strategy first." -/
  | errNoStrategies
  /-- throw: "Kill switch is active. Deactivate it before starting." -/
  | errKillSwitch
  | started
deriving DecidableEq, Repr

/-- `AutomationEngine.start()`: returns early if already running, throws if
no strategy is registered, throws if the kill switch is active, otherwise
sets `running = true` and starts the monitoring loop. -/
def start (s : EngineState) : StartOutcome × EngineState :=
  if s.running then (.alreadyRunning, s)
  else if s.strategies = 0 then (.errNoStrategies, s)
  else if s.killSwitch then (.errKillSwitch, s)
  else (.started, { s with running := true })

/-- `AutomationEngine.stop()`: sets `running = false` (a no-op when not
running, which yields the same state). -/
def stop (s : EngineState) : EngineState :=
  { s with running := false }

/-- `AutomationEngine.activateKillSwitch()`: sets the kill-switch flag and,
if running, calls `stop()` (whose synchronous prefix clears `running`). -/
def activateKillSwitch (s : EngineState) : EngineState :=
  if ({ s with killSwitch := true } : EngineState).running then
    stop { s with killSwitch := true }
  else
    { s with killSwitch := true }

/-- `AutomationEngine.deactivateKillSwitch()`. -/
def deactivateKillSwitch (s : EngineState) : EngineState :=
  { s with killSwitch := false }

/-- `AutomationEngine.registerStrategy(strategy)` with a fresh strategy id:
the strategies map grows by one. -/
def registerStrategy (s : EngineState) : EngineState :=
  { s with strategies := s.strategies + 1 }

/-- `AutomationEngine.unregisterStrategy(strategyId)` with a present id:
the strategies map shrinks by one (truncated at zero, matching the absent
case being a no-op). -/
def unregisterStrategy (s : EngineState) : EngineState :=
  { s with strategies := s.strategies - 1 }

/-- The public operations of the state machine named by the claim. -/
inductive EngineOp where
  | register
  | unregister
  | startOp
  | stopOp
  | activate
  | deactivate
deriving DecidableEq, Repr

/-- Apply one public operation to the engine state. -/
def applyOp (s : EngineState) : EngineOp → EngineState
  | .register => registerStrategy s
  | .unregister => unregisterStrategy s
  | .startOp => (start s).2
  | .stopOp => stop s
  | .activate => activateKillSwitch s
  | .deactivate => deactivateKillSwitch s

/-- Apply a sequence of public operations, left to right. -/
def applyOps (s : EngineState) (ops : List EngineOp) : EngineState :=
  ops.foldl applyOp s

/-- `AutomationEngine.isRunning()`. -/
def isRunning (s : EngineState) : Bool :=
  s.running

end HedgeBot

namespace HedgeBot

/-! ## SignalEngine (src/core/signalEngine.ts) and the technical
indicators (utils/indicators.ts)

The price history of a monitored pool is the list of recorded prices,
oldest first (the source keeps the last 100 points; the claim concerns a
single invocation over a given history).  A thrown indicator error is an
`Except.error`; `SignalEngine.detectBreakout` catches it and returns no
signal. -/

/-- `SMA(prices, period)`: throws when there are fewer than `period`
points, else averages the last `period` prices (`prices.slice(-period)`;
every call site passes `period ≥ 1`, where `slice(-period)` is exactly the
last `period` elements). -/
def SMA (prices : List ℚ) (period : ℕ) : Except String ℚ :=
  if prices.length < period then
    .error "Not enough data points"
  else
    .ok ((prices.drop (prices.length - period)).sum / period)

/-- `priceChange(currentPrice, previousPrice)`: percentage change, throwing
on a zero previous price. -/
def priceChange (currentPrice previousPrice : ℚ) : Except String ℚ :=
  if previousPrice = 0 then
    .error "Previous price cannot be zero"
  else
    .ok ((currentPrice - previousPrice) / previousPrice * 100)

/-- Breakout direction (`"up" | "down"`, `null` when no breakout). -/
inductive Dir where
  | up
  | down
deriving DecidableEq, Repr

/-- Result of the `detectBreakout` indicator. -/
structure BreakoutResult where
  breakout : Bool
  direction : Option Dir
  magnitude : ℚ
deriving DecidableEq, Repr

/-- `detectBreakout(currentPrice, historicalPrices, threshold)` indicator:
SMA over the last `min(20, length)` historical prices, magnitude
`|changePercent| / 100`, breakout iff `magnitude > threshold`. -/
def detectBreakoutIndicator (currentPrice : ℚ) (historicalPrices : List ℚ)
    (threshold : ℚ) : Except String BreakoutResult :=
  if historicalPrices.length = 0 then
    .ok ⟨false, none, 0⟩
  else
    match SMA historicalPrices (min 20 historicalPrices.length) with
    | .error msg => .error msg
    | .ok recentAvg =>
      match priceChange currentPrice recentAvg with
      | .error msg => .error msg
      | .ok changePercent =>
        if |changePercent| / 100 > threshold then
          .ok ⟨true, some (if changePercent > 0 then .up else .down), |changePercent| / 100⟩
        else
          .ok ⟨false, none, |changePercent| / 100⟩

/-- The fields of a breakout `Signal` the claim speaks about (`id`,
timestamps and metadata omitted; `expiresAt` is always now + 5 min). -/
structure Signal where
  magnitude : ℚ
  confidence : ℚ
  direction : Option Dir
deriving DecidableEq, Repr

/-- `SignalEngine.detectBreakout(pair, poolAddress, threshold)` over the
recorded price history of the pool: requires at least 10 points, splits
off the last price, runs the indicator on the rest; the breakout branch
then crashes on the unbound `uuidv4` and every thrown error is caught by
the method's catch, which returns null — so no invocation ever yields a
signal. -/
def detectBreakout (history : List ℚ) (threshold : ℚ) : Option Signal :=
  if history.length < 10 then
    none   -- Not enough data
  else
    match history.getLast? with
    | none => none   -- unreachable: the history has ≥ 10 points
    | some currentPrice =>
      match detectBreakoutIndicator currentPrice history.dropLast threshold with
      | .error _ => none   -- catch: return null
      | .ok r =>
        if r.breakout then
          -- The signal literal starts with `id: uuidv4()`; `uuidv4` is
          -- bound nowhere (signalEngine.ts:126 — the file defines
          -- `generateId` at line 21 and never uses it), so this branch
          -- throws a ReferenceError which the surrounding catch turns
          -- into a null return.
          none
        else
          none

end HedgeBot

namespace HedgeBot

/-! ## PositionManager (src/core/positionManager.ts) and HedgeEngine
(hedgeEngine.ts)

The persistence layer is modelled as the list of Position rows, in table
order; the Prisma client's possible rejection of an `update` call for a
given row is modelled by the oracle `dbFail : ℕ → Bool` on position ids,
and the market-data feed by `priceOf : String → ℚ` on pool addresses.
Time-valued columns (`openedAt`, `closedAt`) are omitted: no claim
concerns them (`getOpenPositions`'s `orderBy openedAt desc` only changes
iteration order, which none of the claimed counts depend on). -/

/-- Position row status. -/
inductive PositionStatus where
  | OPEN
  | CLOSED
deriving DecidableEq, Repr

/-- A Position row (the columns the claims touch). -/
structure Position where
  id : ℕ
  userId : String
  poolAddress : String
  amount : ℚ
  entryPrice : ℚ
  currentPrice : ℚ
  fees : ℚ
  realizedPnl : ℚ
  unrealizedPnl : ℚ
  status : PositionStatus
  hedgePositionId : Option String
  isLongSide : Option Bool
  hedgeRatio : Option ℚ
deriving DecidableEq, Repr

/-- `PositionManager.closePosition(positionId, exitPrice)`: finds the row
("Position not found" when absent) and then calls `prisma.position.update`
whose `data` object is written `status: CLOSED` with the bare identifier
`CLOSED` (positionManager.ts:203; the same file writes the string
`"CLOSED"` elsewhere, e.g. line 258) — `CLOSED` is bound nowhere, so
evaluating the argument throws a ReferenceError before any row is
mutated.  Every call with an existing row therefore rejects. -/
def closePosition (store : List Position) (positionId : ℕ)
    (_exitPrice : ℚ) : Except String Position × List Position :=
  match store.find? (fun p => p.id == positionId) with
  | none => (.error "Position not found", store)
  | some _position =>
    -- realizedPnl = (exitPrice - entryPrice) * amount - fees is computed,
    -- then the update's data literal evaluates the unbound `CLOSED`
    (.error "ReferenceError: CLOSED is not defined", store)

/-- The open rows of one hedge group: the shared Prisma query
`findMany({hedgePositionId, status: OPEN})` of `closeHedgePosition` and
`rebalancePosition`. -/
def openHedgeLegs (hedgePositionId : String) (store : List Position) : List Position :=
  store.filter (fun p => p.hedgePositionId == some hedgePositionId && p.status == .OPEN)

/-- Return value of `PositionManager.closeHedgePosition`. -/
structure HedgeCloseResult where
  hedgePositionId : String
  longPnl : ℚ
  shortPnl : ℚ
deriving DecidableEq, Repr

/-- `PositionManager.closeHedgePosition(hedgePositionId, prices)`: its
very first statement is `prisma.position.findMany({where: {…, status:
OPEN}})` with the bare identifier `OPEN` (positionManager.ts:219), which
is bound nowhere — the where-clause literal throws a ReferenceError
before the query runs, so every call rejects there.  The remainder of the
method (the long/short lookup, the "Hedge position incomplete" throw, the
two `closePosition` calls and the per-leg P&L result) is unreachable. -/
def pmCloseHedgePosition (store : List Position)
    (_hedgePositionId : String) (_priceLong _priceShort : ℚ) :
    Except String HedgeCloseResult × List Position :=
  (.error "ReferenceError: OPEN is not defined", store)

/-- Return value of `HedgeEngine.closeHedgePosition`. -/
structure CloseHedgeOutput where
  signature : String
  totalPnl : ℚ
  longPnl : ℚ
  shortPnl : ℚ
deriving DecidableEq, Repr

/-- `HedgeEngine.closeHedgePosition(positionId)`: fetches the group's open
rows with its own query (which correctly quotes `"OPEN"`,
types/index.ts:170), throws "Hedge position not found or incomplete" if a
leg is missing, prices both legs via the market-data service, then
delegates to `PositionManager.closeHedgePosition` — whose immediate
ReferenceError the catch logs and re-throws, so the `{signature, totalPnl,
longPnl, shortPnl}` return is never reached. -/
def hedgeCloseHedgePosition (priceOf : String → ℚ)
    (store : List Position) (positionId : String) :
    Except String CloseHedgeOutput × List Position :=
  let positions := openHedgeLegs positionId store
  match positions.find? (fun p => p.isLongSide == some true),
        positions.find? (fun p => p.isLongSide == some false) with
  | some longPos, some shortPos =>
    let longPrice := priceOf longPos.poolAddress
    let shortPrice := priceOf shortPos.poolAddress
    match pmCloseHedgePosition store positionId longPrice shortPrice with
    | (.ok result, store') =>
      (.ok ⟨"closed_" ++ positionId, result.longPnl + result.shortPnl,
            result.longPnl, result.shortPnl⟩, store')
    | (.error msg, store') => (.error msg, store')
  | _, _ => (.error "Hedge position not found or incomplete", store)

/-- `PositionManager.updatePositionPrice(positionId, currentPrice)`:
recomputes `unrealizedPnl = (currentPrice - entryPrice) * amount`. -/
def updatePositionPrice (dbFail : ℕ → Bool) (store : List Position)
    (positionId : ℕ) (currentPrice : ℚ) : Except String Position × List Position :=
  match store.find? (fun p => p.id == positionId) with
  | none => (.error "Position not found", store)
  | some position =>
    if dbFail position.id then
      (.error "Database update failed", store)
    else
      let updated := { position with
        currentPrice := currentPrice
        unrealizedPnl := (currentPrice - position.entryPrice) * position.amount }
      (.ok updated, store.map (fun p => if p.id == positionId then updated else p))

/-- `RiskManager.needsRebalancing(currentRatio, targetRatio)` with the
configured `rebalanceThreshold`. -/
def needsRebalancing (rebalanceThreshold currentRatio targetRatio : ℚ) : Bool :=
  decide (|currentRatio - targetRatio| / targetRatio > rebalanceThreshold)

/-- `HedgeEngine.rebalancePosition(positionId)`: fetches the group's open
rows, throws "Hedge position not found or incomplete" if a leg is missing;
otherwise compares current vs target ratio (`longPos.hedgeRatio || 1.0`)
and, when rebalancing is needed, updates the overweight leg's tracked
price via `PositionManager.updatePositionPrice`. -/
def rebalancePosition (dbFail : ℕ → Bool) (rebalanceThreshold : ℚ)
    (priceOf : String → ℚ) (store : List Position) (positionId : String) :
    Except String Unit × List Position :=
  let positions := openHedgeLegs positionId store
  match positions.find? (fun p => p.isLongSide == some true),
        positions.find? (fun p => p.isLongSide == some false) with
  | some longPos, some shortPos =>
    let longPrice := priceOf longPos.poolAddress
    let shortPrice := priceOf shortPos.poolAddress
    let longValue := longPos.amount * longPrice
    let shortValue := shortPos.amount * shortPrice
    let currentRatio := longValue / shortValue
    -- `longPos.hedgeRatio || 1.0`: 0 is falsy
    let targetRatio :=
      match longPos.hedgeRatio with
      | some r => if r = 0 then 1 else r
      | none => 1
    if needsRebalancing rebalanceThreshold currentRatio targetRatio then
      if currentRatio > targetRatio then
        match updatePositionPrice dbFail store longPos.id longPrice with
        | (.ok _, store') => (.ok (), store')
        | (.error msg, store') => (.error msg, store')
      else
        match updatePositionPrice dbFail store shortPos.id shortPrice with
        | (.ok _, store') => (.ok (), store')
        | (.error msg, store') => (.error msg, store')
    else
      (.ok (), store)
  | _, _ => (.error "Hedge position not found or incomplete", store)

/-- `PositionManager.getOpenPositions(userId)`: its `findMany` where-clause
is written `status: OPEN` with the bare identifier `OPEN`
(positionManager.ts:95; the same file writes the string `"OPEN"` at line
257) — `OPEN` is bound nowhere, so evaluating the query argument throws a
ReferenceError and every call rejects. -/
def getOpenPositions (_userId : String) (_store : List Position) :
    Except String (List Position) :=
  .error "ReferenceError: OPEN is not defined" 

/-- One entry of the `errors` array of `emergencyCloseAllPositions`. -/
structure EmergencyItemError where
  positionId : ℕ
  error : String
deriving DecidableEq, Repr

/-- Return value of `emergencyCloseAllPositions`. -/
structure EmergencyReport where
  closedCount : ℕ
  totalPnl : ℚ
  errors : List EmergencyItemError
deriving DecidableEq, Repr

/-- `currentPrices.get(pool) || position.currentPrice || position.entryPrice`
(JS `||`: an absent map entry and a zero price are both falsy). -/
def fallbackPrice (priceMap : String → Option ℚ) (p : Position) : ℚ :=
  match priceMap p.poolAddress with
  | some v =>
    if v = 0 then (if p.currentPrice = 0 then p.entryPrice else p.currentPrice) else v
  | none => if p.currentPrice = 0 then p.entryPrice else p.currentPrice

/-- The `for (const position of openPositions)` loop of
`emergencyCloseAllPositions`: close each snapshot row in turn inside a
per-item try/catch; a successful close would increment `closedCount` and
add the realized P&L, a failed close appends to `errors` and continues.
(The loop is unreachable in the source: the snapshot call before it
throws, see `emergencyCloseAllPositions`.) -/
def emergencyCloseGo (priceMap : String → Option ℚ) :
    List Position → List Position → EmergencyReport → EmergencyReport × List Position
  | [], store, acc => (acc, store)
  | p :: rest, store, acc =>
    match closePosition store p.id (fallbackPrice priceMap p) with
    | (.ok closed, store') =>
      emergencyCloseGo priceMap rest store'
        { acc with
          closedCount := acc.closedCount + 1
          totalPnl := acc.totalPnl + closed.realizedPnl }
    | (.error msg, store') =>
      emergencyCloseGo priceMap rest store'
        { acc with errors := acc.errors ++ [⟨p.id, msg⟩] }

/-- `PositionManager.emergencyCloseAllPositions(userId, currentPrices)`:
the snapshot `await this.getOpenPositions(userId)` (positionManager.ts:285)
runs outside any try/catch, and `getOpenPositions` throws its
ReferenceError, so every call re-throws before the loop starts and no
`{closedCount, totalPnl, errors}` report is ever produced. -/
def emergencyCloseAllPositions (priceMap : String → Option ℚ)
    (store : List Position) (userId : String) :
    Except String (EmergencyReport × List Position) :=
  match getOpenPositions userId store with
  | .error msg => .error msg
  | .ok openPositions => .ok (emergencyCloseGo priceMap openPositions store ⟨0, 0, []⟩)

/-! ### Concrete example data used by the witnesses -/

/-- The long leg of the spec's end-to-end example: entry 100, amount 100. -/
def longLeg7 : Position :=
  ⟨1, "u", "P", 100, 100, 100, 0, 0, 0, .OPEN, some "H", some true, some 1⟩

/-- The short leg of the spec's end-to-end example: entry 100, amount 100. -/
def shortLeg7 : Position :=
  ⟨2, "u", "P2", 100, 100, 100, 0, 0, 0, .OPEN, some "H", some false, some 1⟩

/-- Store holding the example hedge group `"H"`. -/
def store7 : List Position := [longLeg7, shortLeg7]

/-- Market prices for the example: the long pool exits at 110, the short
pool at 95. -/
def price7 (pool : String) : ℚ :=
  if pool = "P" then 110 else 95

/-- Three open positions of user `"u"`: the concrete instance on which the
spec promises `closedCount = 2`, `errors.length = 1` when one close
throws. -/
def store9 : List Position :=
  [⟨1, "u", "P", 100, 100, 100, 0, 0, 0, .OPEN, none, none, none⟩,
   ⟨2, "u", "P", 100, 100, 100, 0, 0, 0, .OPEN, none, none, none⟩,
   ⟨3, "u", "P", 100, 100, 100, 0, 0, 0, .OPEN, none, none, none⟩]

end HedgeBot

namespace HedgeBot

/-! ## Claims C1, C2 -/

/-- Helper invariant for the retry loop: the loop body runs at most `fuel`
more times starting from attempt counter `retryAttempt`. -/
theorem executeOrderGo_attempts_le (oracle : ℕ → AttemptOutcome) :
    ∀ (fuel retryAttempt : ℕ) (lastError : Option TradeError) (sleeps : List ℕ),
      (executeOrderGo oracle fuel retryAttempt lastError sleeps).attemptsMade ≤
        retryAttempt + fuel := by
  intro fuel
  induction fuel with
  | zero => intro retryAttempt lastError sleeps; simp [executeOrderGo]
  | succ n ih =>
      intro retryAttempt lastError sleeps
      unfold executeOrderGo
      cases oracle retryAttempt with
      | success sig => simp
      | failure e =>
          by_cases hr : isRetryableError e = true
          · simp only [hr, if_true]
            have := ih (retryAttempt + 1) (some e) (sleeps ++ [retrySleep e retryAttempt])
            omega
          · simp only [Bool.not_eq_true] at hr
            simp [hr]

/-- **C2 counterexample.** With every attempt failing with a retryable
`NetworkError`, `executeOrder` runs the loop body five times — more than
the four attempts the claim allows — because the loop guard is
`retryAttempt <= MAX_RETRIES` with `MAX_RETRIES = 4`. -/
theorem executeOrder_five_attempts_cex :
    (executeOrder (fun _ => AttemptOutcome.failure TradeError.networkError)).attemptsMade = 5 ∧
    ¬ (executeOrder (fun _ => AttemptOutcome.failure TradeError.networkError)).attemptsMade ≤ 4 := by
  decide

/-- Helper: consuming a prefix of `k ≤ 4` retryable failures leaves the
retry loop at attempt `k`, with the sleep `retrySleep (err j) j` performed
between attempt `j` and attempt `j + 1` for every `j < k`. -/
theorem executeOrderGo_consume (oracle : ℕ → AttemptOutcome) (err : ℕ → TradeError) :
    ∀ k : ℕ, k ≤ 4 →
      (∀ j, j < k → oracle j = .failure (err j)) →
      (∀ j, j < k → isRetryableError (err j) = true) →
      executeOrder oracle = executeOrderGo oracle (5 - k) k
        (if k = 0 then none else some (err (k - 1)))
        ((List.range k).map (fun j => retrySleep (err j) j)) := by
  intro k
  induction k with
  | zero => intro _ _ _; rfl
  | succ n ih =>
      intro hk hfail hret
      have hn := ih (by omega) (fun j hj => hfail j (by omega)) (fun j hj => hret j (by omega))
      rw [hn]
      have h5 : 5 - n = (5 - (n + 1)) + 1 := by omega
      rw [h5]
      simp only [executeOrderGo, hfail n (by omega), hret n (by omega), if_true]
      simp [List.range_succ]

/-- **C2 (amended).** For every order (venue behaviour `oracle`):
`executeOrder` makes at most **5** execution attempts (one initial plus
`MAX_RETRIES = 4` retries).  After any prefix of retryable failures
(attempts `0..k-1`, `k ≤ 4`, each followed by the sleep
`retrySleep (err j) j`): a **non-retryable** error at attempt `k` returns
a failure immediately — `retryAttempts = k`, exactly `k + 1` attempts, no
further sleep; a success at attempt `k` returns it with the same trace;
and when all five attempts fail retryably the result is
`{success: false, retryAttempts: 4}` after five attempts.  The backoff
delays `getRetryDelay 0..3` are 2s/4s/8s/16s, every non-rate-limit
retryable error sleeps `getRetryDelay j` before retry `j + 1`, and a
rate-limit error with positive `retryAfter` sleeps `retryAfter * 1000` ms
instead. -/
theorem executeOrder_retry_spec (oracle : ℕ → AttemptOutcome) :
    (executeOrder oracle).attemptsMade ≤ 5 ∧
    (∀ (k : ℕ) (err : ℕ → TradeError) (e : TradeError), k ≤ 4 →
      (∀ j, j < k → oracle j = .failure (err j)) →
      (∀ j, j < k → isRetryableError (err j) = true) →
      oracle k = .failure e → isRetryableError e = false →
      executeOrder oracle =
        { success := false, signature := none, error := some e
          retryAttempts := k, attemptsMade := k + 1
          sleeps := (List.range k).map (fun j => retrySleep (err j) j) }) ∧
    (∀ (k : ℕ) (err : ℕ → TradeError) (sig : String), k ≤ 4 →
      (∀ j, j < k → oracle j = .failure (err j)) →
      (∀ j, j < k → isRetryableError (err j) = true) →
      oracle k = .success sig →
      executeOrder oracle =
        { success := true, signature := some sig, error := none
          retryAttempts := k, attemptsMade := k + 1
          sleeps := (List.range k).map (fun j => retrySleep (err j) j) }) ∧
    (∀ err : ℕ → TradeError,
      (∀ j, j ≤ 4 → oracle j = .failure (err j)) →
      (∀ j, j ≤ 4 → isRetryableError (err j) = true) →
      executeOrder oracle =
        { success := false, signature := none, error := some (err 4)
          retryAttempts := 4, attemptsMade := 5
          sleeps := (List.range 5).map (fun j => retrySleep (err j) j) }) ∧
    ([getRetryDelay 0, getRetryDelay 1, getRetryDelay 2, getRetryDelay 3] =
      [2000, 4000, 8000, 16000]) ∧
    (∀ e n, (∀ r, e ≠ .rateLimitError r) → retrySleep e n = getRetryDelay n) ∧
    (∀ r n, 0 < r → retrySleep (.rateLimitError r) n = r * 1000) := by
  refine ⟨?_, ?_, ?_, ?_, by decide, ?_, ?_⟩
  · have := executeOrderGo_attempts_le oracle 5 0 none []
    simpa [executeOrder] using this
  · intro k err e hk hfail hret hke hnre
    rw [executeOrderGo_consume oracle err k hk hfail hret]
    have h5 : 5 - k = (4 - k) + 1 := by omega
    rw [h5]
    simp [executeOrderGo, hke, hnre]
  · intro k err sig hk hfail hret hke
    rw [executeOrderGo_consume oracle err k hk hfail hret]
    have h5 : 5 - k = (4 - k) + 1 := by omega
    rw [h5]
    simp [executeOrderGo, hke]
  · intro err hfail hret
    rw [executeOrderGo_consume oracle err 4 (by omega) (fun j hj => hfail j (by omega))
      (fun j hj => hret j (by omega))]
    rw [show (5 : ℕ) - 4 = 0 + 1 from rfl]
    simp [executeOrderGo, hfail 4 (by omega), hret 4 (by omega), List.range_succ]
  · intro e n h
    cases e with
    | rateLimitError r => exact absurd rfl (h r)
    | networkError => rfl
    | transactionTimeoutError => rfl
    | transactionConfirmationError => rfl
    | slippageError => rfl
    | insufficientFundsError => rfl
    | validationError => rfl
    | otherError => rfl
  · intro r n hr
    simp [retrySleep, hr]

/-- Witness for C2 (amended): every attempt hits a rate limit with
`retryAfter = 7`, so all five sleeps are 7000 ms and the result reports
`retryAttempts = 4` after five attempts. -/
theorem executeOrder_retry_spec_witness :
    executeOrder (fun _ => AttemptOutcome.failure (TradeError.rateLimitError 7)) =
      { success := false, signature := none, error := some (.rateLimitError 7)
        retryAttempts := 4, attemptsMade := 5
        sleeps := [7000, 7000, 7000, 7000, 7000] } := by
  have h := (executeOrder_retry_spec
      (fun _ => AttemptOutcome.failure (TradeError.rateLimitError 7))).2.2.2.1
    (fun _ => TradeError.rateLimitError 7) (fun _ _ => rfl) (fun _ _ => rfl)
  rw [h]
  decide

/-- **C1.** `executeHedgeOrders` executes the long leg first: if the long
leg fails, the short leg is never attempted and the result does not depend
on the short leg's behaviour; the result reports `success = true` only
when both legs succeed; and when the short leg fails after the long leg
succeeded with signature `sig`, the result is a failure whose
`AtomicExecutionError` carries `successfulOrders = [sig]` and
`failedOrders = ["short"]`. -/
theorem executeHedgeOrders_atomic (longOracle shortOracle : ℕ → AttemptOutcome) :
    ((executeOrder longOracle).success = false →
      (executeHedgeOrders longOracle shortOracle).2 = false ∧
      ∀ other : ℕ → AttemptOutcome,
        executeHedgeOrders longOracle shortOracle = executeHedgeOrders longOracle other) ∧
    ((executeHedgeOrders longOracle shortOracle).1.success = true →
      (executeOrder longOracle).success = true ∧
      (executeOrder shortOracle).success = true) ∧
    (∀ sig, (executeOrder longOracle).signature = some sig →
      (executeOrder longOracle).success = true →
      (executeOrder shortOracle).success = false →
      (executeHedgeOrders longOracle shortOracle).1.success = false ∧
      (executeHedgeOrders longOracle shortOracle).1.error =
        some ⟨"Short order failed after long order succeeded", [sig], ["short"]⟩) := by
  refine ⟨?_, ?_, ?_⟩
  · intro hL
    constructor
    · simp [executeHedgeOrders, hL]
    · intro other
      simp [executeHedgeOrders, hL]
  · intro hS
    by_cases hL : (executeOrder longOracle).success = true
    · refine ⟨hL, ?_⟩
      by_cases hSh : (executeOrder shortOracle).success = true
      · exact hSh
      · simp only [Bool.not_eq_true] at hSh
        simp [executeHedgeOrders, hL, hSh] at hS
    · simp only [Bool.not_eq_true] at hL
      simp [executeHedgeOrders, hL] at hS
  · intro sig hsig hL hSh
    simp [executeHedgeOrders, hL, hSh, hsig]

/-- Witness for C1: the long leg succeeds with signature `"L1"` and the
short leg fails with a non-retryable validation error; the hedge result is
a failure carrying `successfulOrders = ["L1"]`, `failedOrders = ["short"]`. -/
theorem executeHedgeOrders_atomic_witness :
    (executeHedgeOrders (fun _ => AttemptOutcome.success "L1")
        (fun _ => AttemptOutcome.failure TradeError.validationError)).1.success = false ∧
    (executeHedgeOrders (fun _ => AttemptOutcome.success "L1")
        (fun _ => AttemptOutcome.failure TradeError.validationError)).1.error =
      some ⟨"Short order failed after long order succeeded", ["L1"], ["short"]⟩ :=
  (executeHedgeOrders_atomic (fun _ => AttemptOutcome.success "L1")
      (fun _ => AttemptOutcome.failure TradeError.validationError)).2.2
    "L1" rfl rfl rfl

/-! ## Claims C4, C5, C10 -/

/-- **C4.** For all non-negative amounts, `checkSufficientBalance(required,
available)` is valid exactly when `available ≥ required * 1.01`, and it
distinguishes two failure reasons: `insufficientBalance` when
`available < required`, and `insufficientForFees` when
`required ≤ available < required * 1.01`. -/
theorem checkSufficientBalance_spec (required available : ℚ)
    (hreq : 0 ≤ required) :
    ((checkSufficientBalance required available).valid = true ↔
      available ≥ required * (101 / 100)) ∧
    (available < required →
      (checkSufficientBalance required available).reason = some .insufficientBalance) ∧
    (required ≤ available → available < required * (101 / 100) →
      (checkSufficientBalance required available).reason = some .insufficientForFees) := by
  have hbuf : required ≤ required * (101 / 100) := by nlinarith
  refine ⟨?_, ?_, ?_⟩
  · unfold checkSufficientBalance
    split
    · next h => simp only [Bool.false_eq_true, false_iff, ge_iff_le, not_le]
                linarith
    · next h =>
        split
        · next h2 => simp only [Bool.false_eq_true, false_iff, ge_iff_le, not_le]
                     linarith
        · next h2 => simp only [ge_iff_le, true_iff]
                     linarith
  · intro h
    unfold checkSufficientBalance
    rw [if_pos h]
  · intro h1 h2
    unfold checkSufficientBalance
    rw [if_neg (by linarith), if_pos (by linarith)]

/-- Witness for C4 at concrete inputs: `required = 100`, `available = 100.5`
falls in the fee-buffer gap (second failure reason). -/
theorem checkSufficientBalance_spec_witness :
    (checkSufficientBalance 100 (201 / 2)).reason = some .insufficientForFees :=
  (checkSufficientBalance_spec 100 (201 / 2) (by norm_num)).2.2 (by norm_num) (by norm_num)

/-- **C5.** For positive prices and a positive custom percent,
`shouldTriggerStopLossWithDefault` fires for `long` exactly when the price
fell by at least `pct` relative to entry, and for `short` exactly when it
rose by at least `pct`; in particular `(89, 100, long, 0.10) = true`,
`(111, 100, short, 0.10) = true` and `(95, 100, long, 0.10) = false`. -/
theorem shouldTriggerStopLoss_spec (current entry pct : ℚ)
    (hc : 0 < current) (he : 0 < entry) (hp : 0 < pct) :
    (shouldTriggerStopLossWithDefault current entry .long (some pct) = true ↔
      (entry - current) / entry ≥ pct) ∧
    (shouldTriggerStopLossWithDefault current entry .short (some pct) = true ↔
      (current - entry) / entry ≥ pct) ∧
    shouldTriggerStopLossWithDefault 89 100 .long (some (1 / 10)) = true ∧
    shouldTriggerStopLossWithDefault 111 100 .short (some (1 / 10)) = true ∧
    shouldTriggerStopLossWithDefault 95 100 .long (some (1 / 10)) = false := by
  have hpct : ¬ pct = 0 := ne_of_gt hp
  refine ⟨?_, ?_,
    by norm_num [shouldTriggerStopLossWithDefault, abs_of_neg],
    by norm_num [shouldTriggerStopLossWithDefault, abs_of_nonneg],
    by norm_num [shouldTriggerStopLossWithDefault, abs_of_neg]⟩
  · unfold shouldTriggerStopLossWithDefault
    simp only [if_neg hpct, Bool.and_eq_true, decide_eq_true_eq, ge_iff_le]
    constructor
    · rintro ⟨hlt, habs⟩
      have hdiff : current - entry < 0 := by linarith
      rw [abs_div, abs_of_pos he, abs_of_neg hdiff] at habs
      have := (div_le_div_iff_of_pos_right he).mpr (le_of_eq (rfl : -(current - entry) = -(current - entry)))
      calc pct ≤ -(current - entry) / entry := habs
        _ = (entry - current) / entry := by ring_nf
    · intro h
      have hnum : pct * entry ≤ entry - current := by
        have := (le_div_iff₀ he).mp h
        linarith
      have hlt : current - entry < 0 := by nlinarith
      refine ⟨hlt, ?_⟩
      rw [abs_div, abs_of_pos he, abs_of_neg hlt]
      rw [le_div_iff₀ he]
      linarith
  · unfold shouldTriggerStopLossWithDefault
    simp only [if_neg hpct, Bool.and_eq_true, decide_eq_true_eq, ge_iff_le]
    constructor
    · rintro ⟨hgt, habs⟩
      have hdiff : 0 < current - entry := by linarith
      rw [abs_div, abs_of_pos he, abs_of_pos hdiff] at habs
      exact habs
    · intro h
      have hnum : pct * entry ≤ current - entry := by
        have := (le_div_iff₀ he).mp h
        linarith
      have hgt : 0 < current - entry := by nlinarith
      refine ⟨hgt, ?_⟩
      rw [abs_div, abs_of_pos he, abs_of_pos hgt]
      rw [le_div_iff₀ he]
      linarith

/-- Witness for C5 at `current = 89`, `entry = 100`, `pct = 0.10`:
the price fell 11%, so the long-side stop-loss fires. -/
theorem shouldTriggerStopLoss_spec_witness :
    shouldTriggerStopLossWithDefault 89 100 .long (some (1 / 10)) = true :=
  ((shouldTriggerStopLoss_spec 89 100 (1 / 10) (by norm_num) (by norm_num)
      (by norm_num)).1).mpr (by norm_num)

/-- **C10.** `shouldTriggerStopLossWithDefault` treats the falsy custom
percent `0` as absent: for every input, passing `0` behaves exactly like
passing the default `0.1`, and exactly like passing nothing at all. -/
theorem shouldTriggerStopLoss_zero_is_default (current entry : ℚ) (side : Side) :
    shouldTriggerStopLossWithDefault current entry side (some 0) =
      shouldTriggerStopLossWithDefault current entry side (some (1 / 10)) ∧
    shouldTriggerStopLossWithDefault current entry side (some 0) =
      shouldTriggerStopLossWithDefault current entry side none := by
  unfold shouldTriggerStopLossWithDefault
  norm_num

end HedgeBot

namespace HedgeBot

/-! ## Claim C3 -/

/-- **C3 counterexample.** From the initial state, register one strategy,
start the engine, then unregister the strategy: the engine is running with
no strategy registered, yet `start()` returns the "already running" early
return instead of throwing — refuting "from any state start() fails
(throws) ... while no strategy is registered". -/
theorem start_whileRunning_noThrow_cex :
    (applyOps ⟨false, false, 0⟩ [.register, .startOp, .unregister]).running = true ∧
    (applyOps ⟨false, false, 0⟩ [.register, .startOp, .unregister]).strategies = 0 ∧
    (start (applyOps ⟨false, false, 0⟩ [.register, .startOp, .unregister])).1 =
      .alreadyRunning ∧
    (start (applyOps ⟨false, false, 0⟩ [.register, .startOp, .unregister])).1 ≠
      .errNoStrategies ∧
    (start (applyOps ⟨false, false, 0⟩ [.register, .startOp, .unregister])).1 ≠
      .errKillSwitch := by
  decide

/-- **C3 (amended).** Activating the kill switch — in any state, so in
particular while running — leaves the engine stopped (`isRunning() =
false`) with the kill switch set; when the engine is already running,
`start()` returns the "already running" early return without throwing and
without changing the state (in particular it does not throw even if no
strategy is registered or the kill switch was set by other means); from
any **non-running** state, `start()` throws while the kill switch is
active or while no strategy is registered; `start()` returns `started`
exactly when the engine is not running, at least one strategy is
registered and the kill switch is inactive; and as long as
`deactivateKillSwitch` is not called, an active kill switch stays set and
`start` never succeeds. -/
theorem automation_killSwitch_spec (s : EngineState) :
    (isRunning (activateKillSwitch s) = false ∧
      (activateKillSwitch s).killSwitch = true) ∧
    (s.running = true → start s = (.alreadyRunning, s)) ∧
    (s.running = false → (s.killSwitch = true ∨ s.strategies = 0) →
      (start s).1 = .errNoStrategies ∨ (start s).1 = .errKillSwitch) ∧
    ((start s).1 = .started ↔
      s.running = false ∧ s.strategies ≠ 0 ∧ s.killSwitch = false) ∧
    (∀ ops : List EngineOp, s.killSwitch = true →
      (∀ op ∈ ops, op ≠ .deactivate) →
      (applyOps s ops).killSwitch = true ∧
      (start (applyOps s ops)).1 ≠ .started) := by
  have hstart_ks : ∀ t : EngineState, t.killSwitch = true → (start t).1 ≠ .started := by
    intro t ht
    unfold start
    by_cases hr : t.running
    · simp [hr]
    · by_cases hs : t.strategies = 0
      · simp [hr, hs]
      · simp [hr, hs, ht]
  have hpres : ∀ (t : EngineState) (op : EngineOp), op ≠ .deactivate →
      t.killSwitch = true → (applyOp t op).killSwitch = true := by
    intro t op hop ht
    cases op with
    | register => simpa [applyOp, registerStrategy] using ht
    | unregister => simpa [applyOp, unregisterStrategy] using ht
    | startOp =>
        simp only [applyOp, start]
        by_cases hr : t.running
        · simpa [hr] using ht
        · by_cases hs : t.strategies = 0
          · simpa [hr, hs] using ht
          · simp [hr, hs, ht]
    | stopOp => simpa [applyOp, stop] using ht
    | activate =>
        simp only [applyOp, activateKillSwitch]
        by_cases hr : t.running <;> simp [hr, stop]
    | deactivate => exact absurd rfl hop
  refine ⟨?_, ?_, ?_, ?_, ?_⟩
  · constructor
    · unfold isRunning activateKillSwitch stop
      by_cases hr : s.running <;> simp [hr]
    · unfold activateKillSwitch stop
      by_cases hr : s.running <;> simp [hr]
  · intro hr
    simp [start, hr]
  · intro hr hor
    unfold start
    rcases hor with hks | hs0
    · by_cases hs : s.strategies = 0
      · simp [hr, hs]
      · simp [hr, hs, hks]
    · simp [hr, hs0]
  · constructor
    · intro h
      unfold start at h
      by_cases hr : s.running
      · simp [hr] at h
      · by_cases hs : s.strategies = 0
        · simp [hr, hs] at h
        · by_cases hks : s.killSwitch
          · simp [hr, hs, hks] at h
          · exact ⟨by simpa using hr, hs, by simpa using hks⟩
    · rintro ⟨hr, hs, hks⟩
      unfold start
      simp [hr, hs, hks]
  · intro ops hks hnd
    have hinv : (applyOps s ops).killSwitch = true := by
      induction ops generalizing s with
      | nil => simpa [applyOps] using hks
      | cons op rest ih =>
          have h1 : (applyOp s op).killSwitch = true :=
            hpres s op (hnd op (List.mem_cons_self op rest)) hks
          have h2 : ∀ o ∈ rest, o ≠ EngineOp.deactivate :=
            fun o ho => hnd o (List.mem_cons_of_mem op ho)
          simpa [applyOps] using ih (applyOp s op) h1 h2
    exact ⟨hinv, hstart_ks _ hinv⟩

/-- Witness for C3 (amended) at concrete states: a running engine's
`start()` returns the early return unchanged; at
`{running := false, killSwitch := true, strategies := 1}` `start()`
throws, and after a kill-switch-preserving operation sequence (here
`[register, startOp]`) start still does not succeed. -/
theorem automation_killSwitch_spec_witness :
    start ⟨true, false, 0⟩ = (.alreadyRunning, ⟨true, false, 0⟩) ∧
    ((start ⟨false, true, 1⟩).1 = .errNoStrategies ∨
      (start ⟨false, true, 1⟩).1 = .errKillSwitch) ∧
    (start (applyOps ⟨false, true, 1⟩ [.register, .startOp])).1 ≠ .started :=
  ⟨(automation_killSwitch_spec ⟨true, false, 0⟩).2.1 rfl,
   (automation_killSwitch_spec ⟨false, true, 1⟩).2.2.1 rfl (Or.inl rfl),
   ((automation_killSwitch_spec ⟨false, true, 1⟩).2.2.2.2
      [.register, .startOp] rfl (by decide)).2⟩

end HedgeBot

namespace HedgeBot

/-! ## Claim C6 -/

/-- **C6 (code bug).** The claim describes the intended breakout detector,
but the fired-signal branch constructs `id: uuidv4()` with `uuidv4` bound
nowhere (signalEngine.ts:126; the file defines `generateId` and never uses
it), so the branch throws a ReferenceError that the method's catch turns
into null: `detectBreakout` returns no signal on **every** input — in
particular on a ten-point history ending in a 3% move over a 2% threshold,
where the claim requires a fired signal with
`confidence = min(magnitude/threshold, 1)`. -/
theorem detectBreakout_never_fires :
    (∀ (history : List ℚ) (threshold : ℚ), detectBreakout history threshold = none) ∧
    detectBreakout [100, 100, 100, 100, 100, 100, 100, 100, 100, 103] (1 / 50) = none := by
  have h : ∀ (history : List ℚ) (threshold : ℚ), detectBreakout history threshold = none := by
    intro history threshold
    unfold detectBreakout
    split
    · rfl
    · split
      · rfl
      · split
        · rfl
        · split <;> rfl
  exact ⟨h, h _ _⟩

end HedgeBot

namespace HedgeBot

/-! ## Claim C7 -/

/-- **C7 (code bug).** The claim describes the intended close flow, but
`PositionManager.closeHedgePosition` throws a ReferenceError at its first
query (unbound `OPEN`, positionManager.ts:219) and
`PositionManager.closePosition` throws at its update (unbound `CLOSED`,
line 203), so `HedgeEngine.closeHedgePosition` re-throws on every call:
for every store, group and price feed it returns an error with the store
unchanged — no leg is ever closed and no P&L is returned.  On the spec's
example group (both legs entered at 100 with amount 100, exits 110/95) it
yields the ReferenceError instead of
`longPnl = 1000, shortPnl = -500, totalPnl = 500`. -/
theorem hedgeClose_always_throws :
    (∀ (priceOf : String → ℚ) (store : List Position) (gid : String),
      ∃ msg, hedgeCloseHedgePosition priceOf store gid = (.error msg, store)) ∧
    hedgeCloseHedgePosition price7 store7 "H" =
      (.error "ReferenceError: OPEN is not defined", store7) := by
  constructor
  · intro priceOf store gid
    simp only [hedgeCloseHedgePosition]
    cases hL : (openHedgeLegs gid store).find? (fun p => p.isLongSide == some true) with
    | none => exact ⟨"Hedge position not found or incomplete", rfl⟩
    | some longPos =>
      cases hS : (openHedgeLegs gid store).find? (fun p => p.isLongSide == some false) with
      | none => exact ⟨"Hedge position not found or incomplete", rfl⟩
      | some shortPos => exact ⟨"ReferenceError: OPEN is not defined", rfl⟩
  · rfl

/-! ## Claim C8 -/

/-- **C8.** A hedge-group operation applied to an incomplete group (no
long leg or no short leg among the group's open rows) is rejected with an
error before any leg is mutated — the store is returned unchanged — and
the group is never processed as if it were complete.
`HedgeEngine.closeHedgePosition` and `HedgeEngine.rebalancePosition`
perform the live incomplete-group check and throw "Hedge position not
found or incomplete"; `PositionManager.closeHedgePosition` errors even
earlier: its query throws the ReferenceError of the unbound `OPEN`
(positionManager.ts:219) before its own incomplete check — which is
therefore unreachable — still an error prior to any mutation. -/
theorem incomplete_group_rejected (dbFail : ℕ → Bool) (priceOf : String → ℚ)
    (rebalanceThreshold priceLong priceShort : ℚ)
    (store : List Position) (gid : String)
    (h : (openHedgeLegs gid store).find? (fun p => p.isLongSide == some true) = none ∨
         (openHedgeLegs gid store).find? (fun p => p.isLongSide == some false) = none) :
    hedgeCloseHedgePosition priceOf store gid =
      (.error "Hedge position not found or incomplete", store) ∧
    rebalancePosition dbFail rebalanceThreshold priceOf store gid =
      (.error "Hedge position not found or incomplete", store) ∧
    pmCloseHedgePosition store gid priceLong priceShort =
      (.error "ReferenceError: OPEN is not defined", store) := by
  refine ⟨?_, ?_, rfl⟩
  · rcases h with h1 | h2
    · simp [hedgeCloseHedgePosition, h1]
    · cases hx : (openHedgeLegs gid store).find? (fun p => p.isLongSide == some true) with
      | none => simp [hedgeCloseHedgePosition, hx]
      | some a => simp [hedgeCloseHedgePosition, hx, h2]
  · rcases h with h1 | h2
    · simp [rebalancePosition, h1]
    · cases hx : (openHedgeLegs gid store).find? (fun p => p.isLongSide == some true) with
      | none => simp [rebalancePosition, hx]
      | some a => simp [rebalancePosition, hx, h2]

/-- Witness for C8: a group whose store holds only the long leg (the
short leg is missing) is rejected by all three operations with the store
untouched. -/
theorem incomplete_group_rejected_witness :
    hedgeCloseHedgePosition price7 [longLeg7] "H" =
      (.error "Hedge position not found or incomplete", [longLeg7]) ∧
    rebalancePosition (fun _ => false) (1 / 20) price7 [longLeg7] "H" =
      (.error "Hedge position not found or incomplete", [longLeg7]) ∧
    pmCloseHedgePosition [longLeg7] "H" 110 95 =
      (.error "ReferenceError: OPEN is not defined", [longLeg7]) :=
  incomplete_group_rejected (fun _ => false) price7 (1 / 20) 110 95 [longLeg7] "H"
    (Or.inr (by decide))

/-! ## Claim C9 -/

/-- **C9 (code bug).** The claim describes the intended per-item
error-collecting batch close, but the snapshot call
`await this.getOpenPositions(userId)` (positionManager.ts:285) runs
outside any try/catch and `getOpenPositions` throws the ReferenceError of
the unbound `OPEN` (line 95), so `emergencyCloseAllPositions` re-throws on
every call and never produces a `{closedCount, totalPnl, errors}` report —
in particular, on the three-open-positions instance it re-throws instead
of reporting `closedCount = 2`, `errors.length = 1`. -/
theorem emergencyCloseAll_rethrows :
    (∀ (priceMap : String → Option ℚ) (store : List Position) (userId : String),
      emergencyCloseAllPositions priceMap store userId =
        .error "ReferenceError: OPEN is not defined") ∧
    emergencyCloseAllPositions (fun _ => none) store9 "u" =
      .error "ReferenceError: OPEN is not defined" :=
  ⟨fun _ _ _ => rfl, rfl⟩

end HedgeBot
